import Mathlib

/-!
Shallow embedding of the jquants-proxy worker (`src/index.ts`) and its cache
module (`src/cache.ts`) for verification.

Modelling conventions:
- HTTP headers are an association list of name/value pairs; lookups, deletions
  and insertions are case-insensitive on the name, mirroring the Fetch API
  `Headers` object (`asciiLower`, `nameEq`).
- Time is integer milliseconds (JS `Date.now()`); `Math.floor` of a division
  by 1000 is `Int.fdiv`.
- Date-header parsing (`new Date(s).getTime()`) is an explicit parameter
  `parseDate : String → Option Int`; `none` models an unparseable date (JS
  `NaN`), in which case the code stores the header value "NaN".
- The external world (the Cloudflare edge cache, the KV store, and the three
  upstream HTTP endpoints) is an `Oracle` record holding the single result
  each external call would produce during one worker invocation; each
  external endpoint is hit at most once per invocation, so one slot suffices.
- Observable side effects (cache lookups, KV reads and writes, upstream
  calls, scheduled cache writes, bearer tokens sent) are threaded through an
  `Effects` log, so claims about "no upstream call is made" are statements
  about the final log.
- JS exceptions become `Except JSError`; an awaited rejection propagates just
  as in the source (there is no try/catch anywhere in these two files).
-/

/-- ASCII lower-casing of one character, as header-name comparison does. -/
def asciiLower (c : Char) : Char :=
  if 'A' ≤ c ∧ c ≤ 'Z' then Char.ofNat (c.toNat + 32) else c

/-- Case-insensitive equality of header names (Fetch `Headers` semantics). -/
def nameEq (a b : String) : Bool :=
  a.data.map asciiLower == b.data.map asciiLower

/-- Header list of a response: name/value pairs, names compared case-insensitively. -/
abbrev Headers := List (String × String)

/-- `headers.get(k)`: first value whose name matches `k` case-insensitively. -/
def hGet (h : Headers) (k : String) : Option String :=
  (h.find? fun p => nameEq p.1 k).map (·.2)

/-- `headers.delete(k)`: drop every pair whose name matches `k`. -/
def hDelete (h : Headers) (k : String) : Headers :=
  h.filter fun p => ! nameEq p.1 k

/-- `headers.set(k, v)`: replace any existing values of `k` by the single pair `(k, v)`. -/
def hSet (h : Headers) (k v : String) : Headers :=
  hDelete h k ++ [(k, v)]

/-- An HTTP response: status, headers and an opaque body. -/
structure Response where
  status : Nat
  headers : Headers
  body : String
  deriving DecidableEq

/-- JS `Response.ok`: status in the range 200..299. -/
def Response.isOk (r : Response) : Bool :=
  200 ≤ r.status ∧ r.status ≤ 299

/-- Errors a worker invocation can end in. -/
inductive JSError where
  /-- An `Error` thrown by the worker code itself, with its message. -/
  | thrown (msg : String)
  /-- A rejected upstream `fetch` (or a body that fails to parse as JSON). -/
  | upstreamFailure
  /-- A rejection raised by the edge-cache backend during `caches.default.match`. -/
  | cacheBackendFailure
  deriving DecidableEq

/-- What the edge cache reports for the request's URL. -/
inductive CacheLookup where
  /-- A stored, non-expired entry matches. -/
  | hit (r : Response)
  /-- No entry matches (`match` resolves to `undefined`). -/
  | miss
  /-- The cache backend rejects. -/
  | backendError
  deriving DecidableEq

deriving instance DecidableEq for Except

/-- One invocation's external world: the result each external call would produce. -/
structure Oracle where
  /-- Result of `caches.default.match` on the request URL. -/
  cacheLookup : CacheLookup
  /-- `KV.get("refresh_token")`: the stored string, or `none` for null. -/
  kvRefresh : Option String
  /-- `KV.get("id_token")`: the stored string, or `none` for null. -/
  kvId : Option String
  /-- `POST /v1/token/auth_user`: `.error` for a rejected fetch or unparseable
      body, otherwise the `refreshToken` field of the JSON body (`none` if absent). -/
  authUserResp : Except Unit (Option String)
  /-- `POST /v1/token/auth_refresh`: same convention for the `idToken` field. -/
  authRefreshResp : Except Unit (Option String)
  /-- The authenticated `GET` of the data endpoint itself. -/
  dataResp : Except Unit Response
  deriving DecidableEq

/-- Log of externally observable actions of one invocation. -/
structure Effects where
  /-- Number of `caches.default.match` calls. -/
  cacheMatches : Nat
  /-- Responses handed to `caches.default.put` (scheduled via `waitUntil`). -/
  cachePuts : List Response
  /-- Keys read from the KV store, in order. -/
  kvGets : List String
  /-- Writes to the KV store: key, value, `expirationTtl` (seconds). -/
  kvPuts : List (String × String × Nat)
  /-- Number of `POST /v1/token/auth_user` calls. -/
  authUserCalls : Nat
  /-- Number of `POST /v1/token/auth_refresh` calls. -/
  authRefreshCalls : Nat
  /-- Number of authenticated data `GET` calls. -/
  dataCalls : Nat
  /-- Bearer tokens sent in `Authorization` headers of data calls. -/
  bearers : List String
  /-- Number of calls entering `#getRefreshToken`. -/
  refreshResolutions : Nat
  deriving DecidableEq

/-- The empty effects log: nothing has been observed. -/
def Effects.empty : Effects :=
  ⟨0, [], [], [], 0, 0, 0, [], 0⟩

/-- JS truthiness test for an optional string: `undefined`/`null` and `""` are falsy. -/
def jsFalsy : Option String → Bool
  | none => true
  | some s => s = ""

/-- The value a JS truthiness check accepts from `KV.get`: a non-null, non-empty string. -/
def kvTruthy : Option String → Option String
  | none => none
  | some s => if s = "" then none else some s

/-- `const CACHE_MAX_AGE = 60 * 10` (cache.ts): default cache TTL in seconds. -/
def CACHE_MAX_AGE : Nat := 60 * 10

/-- Header name for the proxy-cache max age debug header (cache.ts). -/
def X_PROXY_CACHE_MAXAGE_KEY : String := "x-proxy-cache-maxage"

/-- Header name for the proxy-cache age debug header (cache.ts). -/
def X_PROXY_CACHE_AGE_KEY : String := "x-proxy-cache-age"

/-- `const API_BASE_URL = "https://api.jquants.com"` (index.ts). -/
def API_BASE_URL : String := "https://api.jquants.com"

/-- `const REFRESH_TOKEN_TTL = 60 * 60 * 24 * 6` (index.ts): 6 days, in seconds. -/
def REFRESH_TOKEN_TTL : Nat := 60 * 60 * 24 * 6

/-- `const ID_TOKEN_TTL = 60 * 60 * 23` (index.ts): 23 hours, in seconds. -/
def ID_TOKEN_TTL : Nat := 60 * 60 * 23

/-- `const REFRESH_TOKEN_KEY = "refresh_token"` (index.ts, `#getRefreshToken`). -/
def REFRESH_TOKEN_KEY : String := "refresh_token"

/-- `const ID_TOKEN_KEY = "id_token"` (index.ts, `#getToken`). -/
def ID_TOKEN_KEY : String := "id_token"

/-- The worker's environment bindings; `none` models an unset variable. -/
structure Env where
  JQUANTS_API_EMAIL : Option String
  JQUANTS_API_PW : Option String
  deriving DecidableEq

/-- `setDebugHeaders(res)` (cache.ts): if a `date` header is present, set the
age debug header to `Math.floor((Date.now() - new Date(date).getTime()) / 1000)`
("NaN" when the date does not parse); always set the max-age debug header to
`CACHE_MAX_AGE`. Caveat: the source's `if (date)` is a truthiness test, so a
present-but-empty `date` value is also skipped there, while this model
branches on presence alone; a faithful `parseDate` maps `""` to `none` (JS
`new Date("")` is invalid), and no theorem below asserts anything about an
empty `date` value, so the divergence stays outside every hypothesis. -/
def setDebugHeaders (now : Int) (parseDate : String → Option Int) (res : Response) : Response :=
  let res :=
    match hGet res.headers "date" with
    | some d =>
      match parseDate d with
      | some t =>
        { res with headers := hSet res.headers X_PROXY_CACHE_AGE_KEY (toString ((now - t).fdiv 1000)) }
      | none =>
        { res with headers := hSet res.headers X_PROXY_CACHE_AGE_KEY "NaN" }
    | none => res
  { res with headers := hSet res.headers X_PROXY_CACHE_MAXAGE_KEY (toString CACHE_MAX_AGE) }

/-- `getCache(req)` (cache.ts): look the request up in the edge cache; on a
miss return `none`; on a hit rebuild the response, delete `Cache-Control`,
and inject the debug headers. A backend rejection propagates (the source
has no try/catch). -/
def getCache (lookup : CacheLookup) (now : Int) (parseDate : String → Option Int)
    (eff : Effects) : Except JSError (Option Response) × Effects :=
  let eff := { eff with cacheMatches := eff.cacheMatches + 1 }
  match lookup with
  | .backendError => (.error .cacheBackendFailure, eff)
  | .miss => (.ok none, eff)
  | .hit c =>
    let res := { c with headers := hDelete c.headers "Cache-Control" }
    (.ok (some (setDebugHeaders now parseDate res)), eff)

/-- `putCache(c, req, res)` (cache.ts): the clone that is scheduled for
storage — the original response with `Cache-Control` set to
`public, s-maxage=CACHE_MAX_AGE`. The original object is not modified. -/
def putCache (res : Response) : Response :=
  { res with
    headers := hSet res.headers "Cache-Control" ("public, s-maxage=" ++ toString CACHE_MAX_AGE) }

/-- `#getNewRefreshToken()` (index.ts): POST credentials to the login
endpoint; fail unless the JSON body holds a truthy `refreshToken` field. -/
def getNewRefreshToken (env : Env) (o : Oracle) (eff : Effects) :
    Except JSError String × Effects :=
  let eff := { eff with authUserCalls := eff.authUserCalls + 1 }
  match o.authUserResp with
  | .error _ => (.error .upstreamFailure, eff)
  | .ok field =>
    match field with
    | some tok =>
      if tok = "" then (.error (.thrown "JQuants refresh token not found in response"), eff)
      else (.ok tok, eff)
    | none => (.error (.thrown "JQuants refresh token not found in response"), eff)

/-- `#getNewIdToken(refreshToken)` (index.ts): POST to the refresh endpoint;
fail unless the JSON body holds a truthy `idToken` field. -/
def getNewIdToken (refreshToken : String) (o : Oracle) (eff : Effects) :
    Except JSError String × Effects :=
  let eff := { eff with authRefreshCalls := eff.authRefreshCalls + 1 }
  match o.authRefreshResp with
  | .error _ => (.error .upstreamFailure, eff)
  | .ok field =>
    match field with
    | some tok =>
      if tok = "" then (.error (.thrown "JQuants ID token not found in response"), eff)
      else (.ok tok, eff)
    | none => (.error (.thrown "JQuants ID token not found in response"), eff)

/-- `#getRefreshToken()` (index.ts): return the KV-cached refresh token if
truthy; otherwise acquire a new one and store it under `REFRESH_TOKEN_KEY`
with `REFRESH_TOKEN_TTL`. -/
def getRefreshToken (env : Env) (o : Oracle) (eff : Effects) :
    Except JSError String × Effects :=
  let eff := { eff with refreshResolutions := eff.refreshResolutions + 1 }
  let eff := { eff with kvGets := eff.kvGets ++ [REFRESH_TOKEN_KEY] }
  match kvTruthy o.kvRefresh with
  | some cachedToken => (.ok cachedToken, eff)
  | none =>
    match getNewRefreshToken env o eff with
    | (.error e, eff) => (.error e, eff)
    | (.ok newToken, eff) =>
      let eff := { eff with kvPuts := eff.kvPuts ++ [(REFRESH_TOKEN_KEY, newToken, REFRESH_TOKEN_TTL)] }
      (.ok newToken, eff)

/-- `#getToken()` (index.ts): resolve the refresh token first (the source
does this before consulting the KV id-token slot), then return the KV-cached
id token if truthy, else acquire a new one and store it under `ID_TOKEN_KEY`
with `ID_TOKEN_TTL`. -/
def getToken (env : Env) (o : Oracle) (eff : Effects) :
    Except JSError String × Effects :=
  match getRefreshToken env o eff with
  | (.error e, eff) => (.error e, eff)
  | (.ok refreshToken, eff) =>
    let eff := { eff with kvGets := eff.kvGets ++ [ID_TOKEN_KEY] }
    match kvTruthy o.kvId with
    | some cachedToken => (.ok cachedToken, eff)
    | none =>
      match getNewIdToken refreshToken o eff with
      | (.error e, eff) => (.error e, eff)
      | (.ok newToken, eff) =>
        let eff := { eff with kvPuts := eff.kvPuts ++ [(ID_TOKEN_KEY, newToken, ID_TOKEN_TTL)] }
        (.ok newToken, eff)

/-- `#fetchWithCache(url)` (index.ts): serve from cache on a hit; on a miss
obtain a token, issue the authenticated data call, and schedule a cache
write iff the response is ok. -/
def fetchWithCache (env : Env) (url : String) (o : Oracle) (now : Int)
    (parseDate : String → Option Int) (eff : Effects) :
    Except JSError Response × Effects :=
  match getCache o.cacheLookup now parseDate eff with
  | (.error e, eff) => (.error e, eff)
  | (.ok (some res), eff) => (.ok res, eff)
  | (.ok none, eff) =>
    match getToken env o eff with
    | (.error e, eff) => (.error e, eff)
    | (.ok token, eff) =>
      let eff := { eff with dataCalls := eff.dataCalls + 1, bearers := eff.bearers ++ [token] }
      match o.dataResp with
      | .error _ => (.error .upstreamFailure, eff)
      | .ok res =>
        let eff := if res.isOk then { eff with cachePuts := eff.cachePuts ++ [putCache res] } else eff
        (.ok res, eff)

/-- `#checkConfig()` (index.ts): throw when either credential is falsy. -/
def checkConfig (env : Env) : Except JSError Unit :=
  if jsFalsy env.JQUANTS_API_EMAIL || jsFalsy env.JQUANTS_API_PW then
    .error (.thrown "JQUANTS_API_EMAIL or JQUANTS_API_PW is not set")
  else .ok ()

/-- `get(endpoint)` (index.ts): the worker entry point — check the
configuration, then fetch `API_BASE_URL + endpoint` through the cache. -/
def workerGet (env : Env) (endpoint : String) (o : Oracle) (now : Int)
    (parseDate : String → Option Int) : Except JSError Response × Effects :=
  match checkConfig env with
  | .error e => (.error e, Effects.empty)
  | .ok _ => fetchWithCache env (API_BASE_URL ++ endpoint) o now parseDate Effects.empty

/-- The edge-cache content for one URL after the scheduled puts land (the
cache stores at most one entry per key; a later put overwrites). -/
def cacheStoreAfter (store : Option Response) (puts : List Response) : Option Response :=
  puts.foldl (fun _ r => some r) store

/-- The lookup result the edge cache gives for a store holding `store`. -/
def lookupOf (store : Option Response) : CacheLookup :=
  match store with
  | some r => .hit r
  | none => .miss

/-- An oracle whose cache-lookup slot is derived from an explicit store. -/
def oracleWith (o : Oracle) (store : Option Response) : Oracle :=
  { o with cacheLookup := lookupOf store }

/-- Two consecutive invocations of the worker on the same endpoint: the
second sees the cache store left behind by the first's scheduled puts. -/
def runTwice (env : Env) (endpoint : String) (store : Option Response)
    (o1 o2 : Oracle) (now1 now2 : Int) (parseDate : String → Option Int) :
    (Except JSError Response × Effects) × (Except JSError Response × Effects) :=
  let r1 := workerGet env endpoint (oracleWith o1 store) now1 parseDate
  let store1 := cacheStoreAfter store r1.2.cachePuts
  let r2 := workerGet env endpoint (oracleWith o2 store1) now2 parseDate
  (r1, r2)

/-! ## Concrete sample inputs used to exercise the definitions -/

/-- A fully configured environment. -/
def okEnv : Env := ⟨some "user@example.com", some "secret"⟩

/-- A date parser that recognises no date string (every date is unparseable). -/
def pdNone : String → Option Int := fun _ => none

/-- A stored cache entry that carries no `date` header. -/
def c1Entry : Response :=
  ⟨200, [("Cache-Control", "public, s-maxage=600"), ("content-type", "application/json")], "BODY"⟩

/-- World for a cache hit on `c1Entry`; every other external call would fail. -/
def c1Oracle : Oracle := ⟨.hit c1Entry, none, none, .error (), .error (), .error ()⟩

/-- The response the worker serves from `c1Oracle`. -/
def c1Served : Response :=
  ⟨200, [("content-type", "application/json"), ("x-proxy-cache-maxage", "600")], "BODY"⟩

/-- A 2xx upstream response that carries a `Cache-Control: no-store` opt-out. -/
def c2Optout : Response := ⟨200, [("Cache-Control", "no-store")], "B2"⟩

/-- World for a cache miss whose upstream data call returns `c2Optout`;
both tokens are already in the KV store. -/
def c2Oracle : Oracle := ⟨.miss, some "rt", some "idtok", .error (), .error (), .ok c2Optout⟩

/-- A non-2xx upstream response. -/
def c2FailResp : Response := ⟨500, [("content-type", "text/plain")], "server error"⟩

/-- World for a cache miss whose upstream data call fails with a 500;
both tokens are already in the KV store. -/
def c2FailOracle : Oracle := ⟨.miss, some "rt", some "idtok", .error (), .error (), .ok c2FailResp⟩

/-- World where the durable store holds an id token but no refresh token,
and the login endpoint would succeed. -/
def c3Oracle : Oracle :=
  ⟨.miss, none, some "cached-id-token", .ok (some "fresh-refresh-token"), .error (), .error ()⟩

/-- World where the durable store holds both tokens. -/
def c3HitOracle : Oracle := ⟨.miss, some "rt", some "cached-id", .error (), .error (), .error ()⟩

/-- World where the cache backend rejects; everything downstream would succeed. -/
def c4Oracle : Oracle :=
  ⟨.backendError, some "rt", some "id", .ok (some "x"), .ok (some "y"), .ok ⟨200, [], "ok"⟩⟩

/-- An environment with the email binding missing. -/
def c5Env : Env := ⟨none, some "secret"⟩

/-- World where the login endpoint rejects and nothing is stored. -/
def c6Oracle : Oracle := ⟨.miss, none, none, .error (), .error (), .error ()⟩

/-- A stored cache entry carrying a `date` header. -/
def c7Entry : Response :=
  ⟨200, [("date", "Sun, 01 Jan 2023 00:00:00 GMT"), ("content-type", "text/plain")], "B7"⟩

/-- A date parser recognising exactly `c7Entry`'s date header value. -/
def c7Parse : String → Option Int :=
  fun s => if s = "Sun, 01 Jan 2023 00:00:00 GMT" then some 1672531200000 else none

/-- A cacheable (2xx) upstream response. -/
def c8Resp : Response := ⟨200, [("date", "D"), ("content-type", "text/plain")], "OK"⟩

/-- World for a cache miss whose upstream data call returns `c8Resp`;
both tokens are already in the KV store. -/
def c8Oracle : Oracle := ⟨.miss, some "rt", some "idtok", .error (), .error (), .ok c8Resp⟩

/-- World where both token slots are empty and both acquisitions succeed. -/
def c9Oracle : Oracle := ⟨.miss, none, none, .ok (some "rt"), .ok (some "id"), .error ()⟩

/-- The refresh-token write `c9Oracle` produces. -/
def c9Put : String × String × Nat := ("refresh_token", "rt", 518400)

/-- World where the durable store already holds both tokens. -/
def c10Oracle : Oracle := ⟨.miss, some "rtok", some "idtok", .error (), .error (), .error ()⟩

/-! ## Header-algebra lemmas -/

theorem nameEq_refl (a : String) : nameEq a a = true := by
  simp [nameEq]

theorem nameEq_symm_eq (a b : String) : nameEq a b = nameEq b a := by
  simp only [nameEq]
  rw [Bool.eq_iff_iff, beq_iff_eq, beq_iff_eq]
  exact eq_comm

theorem nameEq_trans {a b c : String} (h1 : nameEq a b = true) (h2 : nameEq b c = true) :
    nameEq a c = true := by
  simp only [nameEq, beq_iff_eq] at h1 h2 ⊢
  exact h1.trans h2

theorem find?_filter_compat {α : Type} (p q : α → Bool) (l : List α)
    (hpq : ∀ a, p a = true → q a = true) :
    (l.filter q).find? p = l.find? p := by
  induction l with
  | nil => rfl
  | cons a l ih =>
    by_cases hq : q a
    · by_cases hp : p a
      · simp [List.filter, List.find?, hq, hp]
      · simp only [List.filter, List.find?, hq, if_pos]
        simp [List.find?, hp, ih]
    · have hp : p a = false := by
        cases hpa : p a
        · rfl
        · exact absurd (hpq a hpa) (by simp [hq])
      simp [List.filter, List.find?, hq, hp, ih]

theorem find?_filter_neg {α : Type} (p : α → Bool) (l : List α) :
    (l.filter fun a => ! p a).find? p = none := by
  induction l with
  | nil => rfl
  | cons a l ih =>
    by_cases hp : p a
    · simp [List.filter, hp, ih]
    · simp [List.filter, List.find?, hp, ih]

theorem hGet_hDelete_self (h : Headers) (k : String) : hGet (hDelete h k) k = none := by
  simp [hGet, hDelete, find?_filter_neg]

theorem hGet_hDelete_ne (h : Headers) (k k' : String) (hne : nameEq k' k = false) :
    hGet (hDelete h k) k' = hGet h k' := by
  simp only [hGet, hDelete]
  rw [find?_filter_compat]
  intro a ha
  cases hak : nameEq a.1 k
  · rfl
  · exact absurd (nameEq_trans ((nameEq_symm_eq a.1 k') ▸ ha) hak) (by simp [hne])

theorem hGet_hSet_self (h : Headers) (k v : String) : hGet (hSet h k v) k = some v := by
  simp only [hGet, hSet, List.find?_append]
  have h1 : ((hDelete h k).find? fun p => nameEq p.1 k) = none := by
    have := hGet_hDelete_self h k
    simp only [hGet] at this
    cases hf : (hDelete h k).find? fun p => nameEq p.1 k
    · rfl
    · simp [hf] at this
  simp [h1, List.find?, nameEq_refl]

theorem hGet_hSet_ne (h : Headers) (k k' v : String) (hne : nameEq k' k = false) :
    hGet (hSet h k v) k' = hGet h k' := by
  simp only [hGet, hSet, List.find?_append]
  have h2 : ([(k, v)].find? fun p => nameEq p.1 k') = none := by
    simp [List.find?, (nameEq_symm_eq k k') ▸ hne]
  rw [h2, Option.or_none]
  have := hGet_hDelete_ne h k k' hne
  simp only [hGet, hDelete] at this ⊢
  exact this

/-! ## Debug-header lemmas -/

theorem setDebugHeaders_body (now : Int) (pd : String → Option Int) (res : Response) :
    (setDebugHeaders now pd res).body = res.body := by
  simp only [setDebugHeaders]
  split <;> (try split) <;> rfl

theorem setDebugHeaders_status (now : Int) (pd : String → Option Int) (res : Response) :
    (setDebugHeaders now pd res).status = res.status := by
  simp only [setDebugHeaders]
  split <;> (try split) <;> rfl

theorem hGet_setDebugHeaders_maxage (now : Int) (pd : String → Option Int) (res : Response) :
    hGet (setDebugHeaders now pd res).headers X_PROXY_CACHE_MAXAGE_KEY =
      some (toString CACHE_MAX_AGE) := by
  simp only [setDebugHeaders]
  split <;> (try split) <;> exact hGet_hSet_self ..

theorem hGet_setDebugHeaders_other (now : Int) (pd : String → Option Int) (res : Response)
    (k : String)
    (hAge : nameEq k X_PROXY_CACHE_AGE_KEY = false)
    (hMax : nameEq k X_PROXY_CACHE_MAXAGE_KEY = false) :
    hGet (setDebugHeaders now pd res).headers k = hGet res.headers k := by
  simp only [setDebugHeaders]
  split
  · split
    · rw [hGet_hSet_ne _ _ _ _ hMax, hGet_hSet_ne _ _ _ _ hAge]
    · rw [hGet_hSet_ne _ _ _ _ hMax, hGet_hSet_ne _ _ _ _ hAge]
  · rw [hGet_hSet_ne _ _ _ _ hMax]

theorem hGet_setDebugHeaders_age (now : Int) (pd : String → Option Int) (res : Response)
    (d : String) (t : Int)
    (hd : hGet res.headers "date" = some d) (hp : pd d = some t) :
    hGet (setDebugHeaders now pd res).headers X_PROXY_CACHE_AGE_KEY =
      some (toString ((now - t).fdiv 1000)) := by
  simp only [setDebugHeaders, hd, hp]
  rw [hGet_hSet_ne _ _ _ _ (by decide), hGet_hSet_self]

theorem hGet_setDebugHeaders_age_nan (now : Int) (pd : String → Option Int) (res : Response)
    (d : String)
    (hd : hGet res.headers "date" = some d) (hp : pd d = none) :
    hGet (setDebugHeaders now pd res).headers X_PROXY_CACHE_AGE_KEY = some "NaN" := by
  simp only [setDebugHeaders, hd, hp]
  rw [hGet_hSet_ne _ _ _ _ (by decide), hGet_hSet_self]

theorem setDebugHeaders_no_date (now : Int) (pd : String → Option Int) (res : Response)
    (hd : hGet res.headers "date" = none) :
    (setDebugHeaders now pd res).headers =
      hSet res.headers X_PROXY_CACHE_MAXAGE_KEY (toString CACHE_MAX_AGE) := by
  simp only [setDebugHeaders, hd]

/-! ## Token-path lemmas -/

theorem getNewRefreshToken_snd (env : Env) (o : Oracle) (eff : Effects) :
    (getNewRefreshToken env o eff).2 = { eff with authUserCalls := eff.authUserCalls + 1 } := by
  simp only [getNewRefreshToken]
  split <;> (try split) <;> (try split) <;> rfl

theorem getNewIdToken_snd (rt : String) (o : Oracle) (eff : Effects) :
    (getNewIdToken rt o eff).2 = { eff with authRefreshCalls := eff.authRefreshCalls + 1 } := by
  simp only [getNewIdToken]
  split <;> (try split) <;> (try split) <;> rfl

theorem getNewRefreshToken_ok_iff (env : Env) (o : Oracle) (eff : Effects) (t : String) :
    (getNewRefreshToken env o eff).1 = .ok t ↔ o.authUserResp = .ok (some t) ∧ t ≠ "" := by
  simp only [getNewRefreshToken]
  rcases o.authUserResp with u | f
  · simp
  · rcases f with _ | s
    · simp
    · by_cases hs : s = "" <;> simp [hs] <;> aesop

theorem getNewIdToken_ok_iff (rt : String) (o : Oracle) (eff : Effects) (t : String) :
    (getNewIdToken rt o eff).1 = .ok t ↔ o.authRefreshResp = .ok (some t) ∧ t ≠ "" := by
  simp only [getNewIdToken]
  rcases o.authRefreshResp with u | f
  · simp
  · rcases f with _ | s
    · simp
    · by_cases hs : s = "" <;> simp [hs] <;> aesop

theorem getNewRefreshToken_fst_indep (env : Env) (o : Oracle) (eff eff' : Effects) :
    (getNewRefreshToken env o eff).1 = (getNewRefreshToken env o eff').1 := by
  simp only [getNewRefreshToken]
  split <;> (try split) <;> (try split) <;> rfl

theorem getNewIdToken_fst_indep (rt : String) (o : Oracle) (eff eff' : Effects) :
    (getNewIdToken rt o eff).1 = (getNewIdToken rt o eff').1 := by
  simp only [getNewIdToken]
  split <;> (try split) <;> (try split) <;> rfl

theorem getRefreshToken_spec (env : Env) (o : Oracle) (eff : Effects) :
    (∃ t, kvTruthy o.kvRefresh = some t ∧
       getRefreshToken env o eff =
         (.ok t, { eff with refreshResolutions := eff.refreshResolutions + 1,
                            kvGets := eff.kvGets ++ [REFRESH_TOKEN_KEY] })) ∨
    (kvTruthy o.kvRefresh = none ∧
      ((∃ e, (getNewRefreshToken env o Effects.empty).1 = .error e ∧
         getRefreshToken env o eff =
           (.error e, { eff with refreshResolutions := eff.refreshResolutions + 1,
                                 kvGets := eff.kvGets ++ [REFRESH_TOKEN_KEY],
                                 authUserCalls := eff.authUserCalls + 1 })) ∨
       (∃ t, (getNewRefreshToken env o Effects.empty).1 = .ok t ∧
         getRefreshToken env o eff =
           (.ok t, { eff with refreshResolutions := eff.refreshResolutions + 1,
                              kvGets := eff.kvGets ++ [REFRESH_TOKEN_KEY],
                              authUserCalls := eff.authUserCalls + 1,
                              kvPuts := eff.kvPuts ++ [(REFRESH_TOKEN_KEY, t, REFRESH_TOKEN_TTL)] }))))
    := by
  simp only [getRefreshToken]
  cases hk : kvTruthy o.kvRefresh with
  | some t => exact Or.inl ⟨t, rfl, rfl⟩
  | none =>
    refine Or.inr ⟨rfl, ?_⟩
    cases hg : getNewRefreshToken env o
        { eff with refreshResolutions := eff.refreshResolutions + 1,
                   kvGets := eff.kvGets ++ [REFRESH_TOKEN_KEY] } with
    | mk a b =>
      have hfst : (getNewRefreshToken env o Effects.empty).1 = a := by
        rw [getNewRefreshToken_fst_indep env o Effects.empty
          { eff with refreshResolutions := eff.refreshResolutions + 1,
                     kvGets := eff.kvGets ++ [REFRESH_TOKEN_KEY] }, hg]
      have hsnd : b = { eff with refreshResolutions := eff.refreshResolutions + 1,
                                 kvGets := eff.kvGets ++ [REFRESH_TOKEN_KEY],
                                 authUserCalls := eff.authUserCalls + 1 } := by
        have h2 := getNewRefreshToken_snd env o
          { eff with refreshResolutions := eff.refreshResolutions + 1,
                     kvGets := eff.kvGets ++ [REFRESH_TOKEN_KEY] }
        rw [hg] at h2
        exact h2
      cases a with
      | error e => exact Or.inl ⟨e, hfst, by simp [hsnd]⟩
      | ok t => exact Or.inr ⟨t, hfst, by simp [hsnd]⟩

theorem getToken_spec (env : Env) (o : Oracle) (eff : Effects) :
    (∃ e effr, getRefreshToken env o eff = (.error e, effr) ∧
       getToken env o eff = (.error e, effr)) ∨
    (∃ rt effr, getRefreshToken env o eff = (.ok rt, effr) ∧
      ((∃ t, kvTruthy o.kvId = some t ∧
         getToken env o eff = (.ok t, { effr with kvGets := effr.kvGets ++ [ID_TOKEN_KEY] })) ∨
       (kvTruthy o.kvId = none ∧
         ((∃ e, (getNewIdToken rt o Effects.empty).1 = .error e ∧
            getToken env o eff =
              (.error e, { effr with kvGets := effr.kvGets ++ [ID_TOKEN_KEY],
                                     authRefreshCalls := effr.authRefreshCalls + 1 })) ∨
          (∃ t, (getNewIdToken rt o Effects.empty).1 = .ok t ∧
            getToken env o eff =
              (.ok t, { effr with kvGets := effr.kvGets ++ [ID_TOKEN_KEY],
                                  authRefreshCalls := effr.authRefreshCalls + 1,
                                  kvPuts := effr.kvPuts ++ [(ID_TOKEN_KEY, t, ID_TOKEN_TTL)] }))))))
    := by
  simp only [getToken]
  cases hr : getRefreshToken env o eff with
  | mk a effr =>
    cases a with
    | error e => exact Or.inl ⟨e, effr, rfl, rfl⟩
    | ok rt =>
      refine Or.inr ⟨rt, effr, rfl, ?_⟩
      cases hk : kvTruthy o.kvId with
      | some t => exact Or.inl ⟨t, rfl, rfl⟩
      | none =>
        refine Or.inr ⟨rfl, ?_⟩
        cases hg : getNewIdToken rt o { effr with kvGets := effr.kvGets ++ [ID_TOKEN_KEY] } with
        | mk a b =>
          have hfst : (getNewIdToken rt o Effects.empty).1 = a := by
            rw [getNewIdToken_fst_indep rt o Effects.empty
              { effr with kvGets := effr.kvGets ++ [ID_TOKEN_KEY] }, hg]
          have hsnd : b = { effr with kvGets := effr.kvGets ++ [ID_TOKEN_KEY],
                                      authRefreshCalls := effr.authRefreshCalls + 1 } := by
            have h2 := getNewIdToken_snd rt o { effr with kvGets := effr.kvGets ++ [ID_TOKEN_KEY] }
            rw [hg] at h2
            exact h2
          cases a with
          | error e => exact Or.inl ⟨e, hfst, by simp [hg, hsnd]⟩
          | ok t => exact Or.inr ⟨t, hfst, by simp [hg, hsnd]⟩

theorem kvTruthy_ne_empty (x : Option String) (t : String) (h : kvTruthy x = some t) : t ≠ "" := by
  rcases x with _ | s
  · simp [kvTruthy] at h
  · simp only [kvTruthy] at h
    by_cases hs : s = "" <;> simp [hs] at h
    exact h ▸ hs

theorem getRefreshToken_ok_ne_empty (env : Env) (o : Oracle) (eff : Effects) (t : String)
    (h : (getRefreshToken env o eff).1 = .ok t) : t ≠ "" := by
  rcases getRefreshToken_spec env o eff with ⟨s, hk, he⟩ | ⟨hk, ⟨e, hg, he⟩ | ⟨s, hg, he⟩⟩ <;>
    rw [he] at h <;> simp at h
  · exact h ▸ kvTruthy_ne_empty _ _ hk
  · exact h ▸ ((getNewRefreshToken_ok_iff env o Effects.empty s).1 hg).2

theorem getToken_ok_ne_empty (env : Env) (o : Oracle) (eff : Effects) (t : String)
    (h : (getToken env o eff).1 = .ok t) : t ≠ "" := by
  rcases getToken_spec env o eff with ⟨e, effr, hr, he⟩ |
    ⟨rt, effr, hr, ⟨s, hk, he⟩ | ⟨hk, ⟨e, hg, he⟩ | ⟨s, hg, he⟩⟩⟩ <;>
    rw [he] at h <;> simp at h
  · exact h ▸ kvTruthy_ne_empty _ _ hk
  · exact h ▸ ((getNewIdToken_ok_iff rt o Effects.empty s).1 hg).2

theorem getRefreshToken_frame (env : Env) (o : Oracle) (eff : Effects) :
    (getRefreshToken env o eff).2.cacheMatches = eff.cacheMatches ∧
    (getRefreshToken env o eff).2.cachePuts = eff.cachePuts ∧
    (getRefreshToken env o eff).2.dataCalls = eff.dataCalls ∧
    (getRefreshToken env o eff).2.bearers = eff.bearers ∧
    (getRefreshToken env o eff).2.authRefreshCalls = eff.authRefreshCalls := by
  rcases getRefreshToken_spec env o eff with ⟨s, hk, he⟩ | ⟨hk, ⟨e, hg, he⟩ | ⟨s, hg, he⟩⟩ <;>
    rw [he] <;> exact ⟨rfl, rfl, rfl, rfl, rfl⟩

theorem getToken_frame (env : Env) (o : Oracle) (eff : Effects) :
    (getToken env o eff).2.cacheMatches = eff.cacheMatches ∧
    (getToken env o eff).2.cachePuts = eff.cachePuts ∧
    (getToken env o eff).2.dataCalls = eff.dataCalls ∧
    (getToken env o eff).2.bearers = eff.bearers := by
  obtain ⟨h1, h2, h3, h4, _⟩ := getRefreshToken_frame env o eff
  rcases getToken_spec env o eff with ⟨e, effr, hr, he⟩ |
    ⟨rt, effr, hr, ⟨s, hk, he⟩ | ⟨hk, ⟨e, hg, he⟩ | ⟨s, hg, he⟩⟩⟩ <;>
    rw [he] <;> rw [hr] at h1 h2 h3 h4 <;> exact ⟨h1, h2, h3, h4⟩

theorem getRefreshToken_resolutions (env : Env) (o : Oracle) (eff : Effects) :
    (getRefreshToken env o eff).2.refreshResolutions = eff.refreshResolutions + 1 := by
  rcases getRefreshToken_spec env o eff with ⟨s, hk, he⟩ | ⟨hk, ⟨e, hg, he⟩ | ⟨s, hg, he⟩⟩ <;>
    rw [he]

theorem getToken_resolutions (env : Env) (o : Oracle) (eff : Effects) :
    (getToken env o eff).2.refreshResolutions = eff.refreshResolutions + 1 := by
  have h1 := getRefreshToken_resolutions env o eff
  rcases getToken_spec env o eff with ⟨e, effr, hr, he⟩ |
    ⟨rt, effr, hr, ⟨s, hk, he⟩ | ⟨hk, ⟨e, hg, he⟩ | ⟨s, hg, he⟩⟩⟩ <;>
    rw [he] <;> rw [hr] at h1 <;> exact h1

theorem getRefreshToken_err_kvPuts (env : Env) (o : Oracle) (eff : Effects) (e : JSError)
    (h : (getRefreshToken env o eff).1 = .error e) :
    (getRefreshToken env o eff).2.kvPuts = eff.kvPuts := by
  rcases getRefreshToken_spec env o eff with ⟨s, hk, he⟩ | ⟨hk, ⟨e', hg, he⟩ | ⟨s, hg, he⟩⟩ <;>
    rw [he] at h ⊢ <;> simp at h ⊢

theorem getToken_err_kvPuts (env : Env) (o : Oracle) (eff : Effects) (e : JSError)
    (h : (getToken env o eff).1 = .error e) :
    (getToken env o eff).2.kvPuts = (getRefreshToken env o eff).2.kvPuts := by
  rcases getToken_spec env o eff with ⟨e', effr, hr, he⟩ |
    ⟨rt, effr, hr, ⟨s, hk, he⟩ | ⟨hk, ⟨e', hg, he⟩ | ⟨s, hg, he⟩⟩⟩ <;>
    rw [he] at h ⊢ <;> rw [hr] <;> simp at h ⊢

theorem getRefreshToken_kvPuts_shape (env : Env) (o : Oracle) (eff : Effects)
    (p : String × String × Nat) (hp : p ∈ (getRefreshToken env o eff).2.kvPuts) :
    p ∈ eff.kvPuts ∨ (p.1 = REFRESH_TOKEN_KEY ∧ p.2.2 = REFRESH_TOKEN_TTL ∧ p.2.1 ≠ "") := by
  rcases getRefreshToken_spec env o eff with ⟨s, hk, he⟩ | ⟨hk, ⟨e, hg, he⟩ | ⟨s, hg, he⟩⟩ <;>
    rw [he] at hp
  · exact Or.inl hp
  · exact Or.inl hp
  · simp only [List.mem_append, List.mem_singleton] at hp
    rcases hp with hp | hp
    · exact Or.inl hp
    · have := ((getNewRefreshToken_ok_iff env o Effects.empty s).1 hg).2
      exact Or.inr (by rw [hp]; exact ⟨rfl, rfl, this⟩)

theorem getToken_kvPuts_shape (env : Env) (o : Oracle) (eff : Effects)
    (p : String × String × Nat) (hp : p ∈ (getToken env o eff).2.kvPuts) :
    p ∈ eff.kvPuts ∨ (p.1 = REFRESH_TOKEN_KEY ∧ p.2.2 = REFRESH_TOKEN_TTL ∧ p.2.1 ≠ "") ∨
      (p.1 = ID_TOKEN_KEY ∧ p.2.2 = ID_TOKEN_TTL ∧ p.2.1 ≠ "") := by
  have base : p ∈ (getRefreshToken env o eff).2.kvPuts →
      p ∈ eff.kvPuts ∨ (p.1 = REFRESH_TOKEN_KEY ∧ p.2.2 = REFRESH_TOKEN_TTL ∧ p.2.1 ≠ "") :=
    getRefreshToken_kvPuts_shape env o eff p
  rcases getToken_spec env o eff with ⟨e, effr, hr, he⟩ |
    ⟨rt, effr, hr, ⟨s, hk, he⟩ | ⟨hk, ⟨e, hg, he⟩ | ⟨s, hg, he⟩⟩⟩ <;>
    rw [he] at hp <;> rw [hr] at base
  · rcases base hp with h | h
    · exact Or.inl h
    · exact Or.inr (Or.inl h)
  · rcases base hp with h | h
    · exact Or.inl h
    · exact Or.inr (Or.inl h)
  · rcases base hp with h | h
    · exact Or.inl h
    · exact Or.inr (Or.inl h)
  · simp only [List.mem_append, List.mem_singleton] at hp
    rcases hp with hp | hp
    · rcases base hp with h | h
      · exact Or.inl h
      · exact Or.inr (Or.inl h)
    · have := ((getNewIdToken_ok_iff rt o Effects.empty s).1 hg).2
      exact Or.inr (Or.inr (by rw [hp]; exact ⟨rfl, rfl, this⟩))

/-! ## Orchestrator-level lemmas -/

theorem fetchWithCache_backendError (env : Env) (url : String) (o : Oracle) (now : Int)
    (pd : String → Option Int) (eff : Effects) (h : o.cacheLookup = .backendError) :
    fetchWithCache env url o now pd eff =
      (.error .cacheBackendFailure, { eff with cacheMatches := eff.cacheMatches + 1 }) := by
  simp only [fetchWithCache, getCache, h]

theorem fetchWithCache_hit (env : Env) (url : String) (o : Oracle) (now : Int)
    (pd : String → Option Int) (eff : Effects) (r : Response) (h : o.cacheLookup = .hit r) :
    fetchWithCache env url o now pd eff =
      (.ok (setDebugHeaders now pd { r with headers := hDelete r.headers "Cache-Control" }),
       { eff with cacheMatches := eff.cacheMatches + 1 }) := by
  simp only [fetchWithCache, getCache, h]

theorem fetchWithCache_miss (env : Env) (url : String) (o : Oracle) (now : Int)
    (pd : String → Option Int) (eff : Effects) (h : o.cacheLookup = .miss) :
    (∃ e efft, getToken env o { eff with cacheMatches := eff.cacheMatches + 1 } = (.error e, efft) ∧
       fetchWithCache env url o now pd eff = (.error e, efft)) ∨
    (∃ tok efft, getToken env o { eff with cacheMatches := eff.cacheMatches + 1 } = (.ok tok, efft) ∧
      ((o.dataResp = .error () ∧
         fetchWithCache env url o now pd eff =
           (.error .upstreamFailure,
            { efft with dataCalls := efft.dataCalls + 1, bearers := efft.bearers ++ [tok] })) ∨
       (∃ r, o.dataResp = .ok r ∧
         fetchWithCache env url o now pd eff =
           (.ok r,
            if r.isOk then
              { efft with dataCalls := efft.dataCalls + 1, bearers := efft.bearers ++ [tok],
                          cachePuts := efft.cachePuts ++ [putCache r] }
            else
              { efft with dataCalls := efft.dataCalls + 1, bearers := efft.bearers ++ [tok] })))) := by
  simp only [fetchWithCache, getCache, h]
  cases hg : getToken env o { eff with cacheMatches := eff.cacheMatches + 1 } with
  | mk a efft =>
    cases a with
    | error e => exact Or.inl ⟨e, efft, rfl, rfl⟩
    | ok tok =>
      refine Or.inr ⟨tok, efft, rfl, ?_⟩
      cases hd : o.dataResp with
      | error u => exact Or.inl ⟨by cases u; rfl, rfl⟩
      | ok r =>
        refine Or.inr ⟨r, rfl, ?_⟩
        by_cases hok : r.isOk <;> simp [hok]

theorem workerGet_badConfig (env : Env) (ep : String) (o : Oracle) (now : Int)
    (pd : String → Option Int) (h : jsFalsy env.JQUANTS_API_EMAIL || jsFalsy env.JQUANTS_API_PW) :
    workerGet env ep o now pd =
      (.error (.thrown "JQUANTS_API_EMAIL or JQUANTS_API_PW is not set"), Effects.empty) := by
  simp only [workerGet, checkConfig, h, if_pos]

theorem workerGet_okConfig (env : Env) (ep : String) (o : Oracle) (now : Int)
    (pd : String → Option Int) (h : checkConfig env = .ok ()) :
    workerGet env ep o now pd = fetchWithCache env (API_BASE_URL ++ ep) o now pd Effects.empty := by
  simp only [workerGet, h]

theorem getRefreshToken_fst_indep (env : Env) (o : Oracle) (eff eff' : Effects) :
    (getRefreshToken env o eff).1 = (getRefreshToken env o eff').1 := by
  rcases getRefreshToken_spec env o eff with ⟨t, hk, he⟩ | ⟨hk, ⟨e, hg, he⟩ | ⟨t, hg, he⟩⟩ <;>
  rcases getRefreshToken_spec env o eff' with ⟨t', hk', he'⟩ | ⟨hk', ⟨e', hg', he'⟩ | ⟨t', hg', he'⟩⟩ <;>
  rw [he, he'] <;> simp_all

theorem getToken_fst_indep (env : Env) (o : Oracle) (eff eff' : Effects) :
    (getToken env o eff).1 = (getToken env o eff').1 := by
  have hrt := getRefreshToken_fst_indep env o eff eff'
  rcases getToken_spec env o eff with ⟨e, effr, hr, he⟩ |
    ⟨rt, effr, hr, ⟨t, hk, he⟩ | ⟨hk, ⟨e, hg, he⟩ | ⟨t, hg, he⟩⟩⟩ <;>
  rcases getToken_spec env o eff' with ⟨e', effr', hr', he'⟩ |
    ⟨rt', effr', hr', ⟨t', hk', he'⟩ | ⟨hk', ⟨e', hg', he'⟩ | ⟨t', hg', he'⟩⟩⟩ <;>
  rw [he, he'] <;> rw [hr, hr'] at hrt <;> simp_all

theorem getToken_oracleWith (env : Env) (o : Oracle) (s : Option Response) (eff : Effects) :
    getToken env (oracleWith o s) eff = getToken env o eff := rfl

theorem fetchWithCache_kvPuts_shape (env : Env) (url : String) (o : Oracle) (now : Int)
    (pd : String → Option Int) (eff : Effects) (p : String × String × Nat)
    (hp : p ∈ (fetchWithCache env url o now pd eff).2.kvPuts) :
    p ∈ eff.kvPuts ∨ (p.1 = REFRESH_TOKEN_KEY ∧ p.2.2 = REFRESH_TOKEN_TTL ∧ p.2.1 ≠ "") ∨
      (p.1 = ID_TOKEN_KEY ∧ p.2.2 = ID_TOKEN_TTL ∧ p.2.1 ≠ "") := by
  cases hcl : o.cacheLookup with
  | hit r =>
    rw [fetchWithCache_hit env url o now pd eff r hcl] at hp
    exact Or.inl hp
  | backendError =>
    rw [fetchWithCache_backendError env url o now pd eff hcl] at hp
    exact Or.inl hp
  | miss =>
    have hshape := getToken_kvPuts_shape env o { eff with cacheMatches := eff.cacheMatches + 1 } p
    rcases fetchWithCache_miss env url o now pd eff hcl with
      ⟨e, efft, hgt, hfe⟩ | ⟨tok, efft, hgt, ⟨hde, hfe⟩ | ⟨r, hdr, hfe⟩⟩
    · rw [hfe] at hp
      rw [hgt] at hshape
      exact hshape hp
    · rw [hfe] at hp
      rw [hgt] at hshape
      exact hshape hp
    · rw [hfe] at hp
      rw [hgt] at hshape
      by_cases hok : r.isOk <;> simp only [hok, if_pos, if_neg, Bool.false_eq_true,
        not_false_iff, ite_true, ite_false] at hp <;> exact hshape hp

theorem fetchWithCache_bearers_shape (env : Env) (url : String) (o : Oracle) (now : Int)
    (pd : String → Option Int) (eff : Effects) (b : String)
    (hb : b ∈ (fetchWithCache env url o now pd eff).2.bearers) :
    b ∈ eff.bearers ∨ b ≠ "" := by
  cases hcl : o.cacheLookup with
  | hit r =>
    rw [fetchWithCache_hit env url o now pd eff r hcl] at hb
    exact Or.inl hb
  | backendError =>
    rw [fetchWithCache_backendError env url o now pd eff hcl] at hb
    exact Or.inl hb
  | miss =>
    have hfr := (getToken_frame env o { eff with cacheMatches := eff.cacheMatches + 1 }).2.2.2
    rcases fetchWithCache_miss env url o now pd eff hcl with
      ⟨e, efft, hgt, hfe⟩ | ⟨tok, efft, hgt, ⟨hde, hfe⟩ | ⟨r, hdr, hfe⟩⟩
    all_goals rw [hgt] at hfr
    all_goals have hfr2 : efft.bearers = eff.bearers := by simpa using hfr
    · rw [hfe] at hb
      rw [hfr2] at hb
      exact Or.inl hb
    · rw [hfe] at hb
      simp only [hfr2] at hb
      rcases List.mem_append.1 hb with h | h
      · exact Or.inl h
      · have htok : (getToken env o { eff with cacheMatches := eff.cacheMatches + 1 }).1 = .ok tok := by
          rw [hgt]
        exact Or.inr ((List.mem_singleton.1 h) ▸ getToken_ok_ne_empty _ _ _ _ htok)
    · rw [hfe] at hb
      have htok : (getToken env o { eff with cacheMatches := eff.cacheMatches + 1 }).1 = .ok tok := by
        rw [hgt]
      by_cases hok : r.isOk <;> simp only [hok, ite_true, ite_false, Bool.false_eq_true,
        not_false_iff, hfr2] at hb <;> rcases List.mem_append.1 hb with h | h
      · exact Or.inl h
      · exact Or.inr ((List.mem_singleton.1 h) ▸ getToken_ok_ne_empty _ _ _ _ htok)
      · exact Or.inl h
      · exact Or.inr ((List.mem_singleton.1 h) ▸ getToken_ok_ne_empty _ _ _ _ htok)

theorem workerGet_confErr (env : Env) (ep : String) (o : Oracle) (now : Int)
    (pd : String → Option Int) (e : JSError) (h : checkConfig env = .error e) :
    workerGet env ep o now pd = (.error e, Effects.empty) := by
  simp [workerGet, h]

/-! ## Claim theorems -/

/-- C3 counterexample: the durable store holds a non-expired id token and the
call returns it, yet RefreshToken resolution IS performed — including an
upstream login call and a refresh-token store write — before the id-token
slot is even consulted, refuting that the call is terminal on a hit. -/
theorem c3_counterexample :
    (getToken okEnv c3Oracle Effects.empty).1 = .ok "cached-id-token" ∧
    (getToken okEnv c3Oracle Effects.empty).2.refreshResolutions = 1 ∧
    (getToken okEnv c3Oracle Effects.empty).2.authUserCalls = 1 ∧
    (getToken okEnv c3Oracle Effects.empty).2.kvPuts =
      [(REFRESH_TOKEN_KEY, "fresh-refresh-token", REFRESH_TOKEN_TTL)] := by
  decide

/-- C3 amended: when the durable store holds a non-expired id token, the call
returns that cached value — provided the unconditional RefreshToken
resolution, which the code performs before consulting the id-token slot,
succeeds — and performs no id-token acquisition call and no store write
beyond those of the refresh stage; RefreshToken resolution is entered exactly
once even on an id-token hit. -/
theorem c3_cached_id_token_served (env : Env) (o : Oracle) (eff : Effects) (t rt : String)
    (hid : kvTruthy o.kvId = some t)
    (hrt : (getRefreshToken env o eff).1 = .ok rt) :
    (getToken env o eff).1 = .ok t ∧
    (getToken env o eff).2.authRefreshCalls = eff.authRefreshCalls ∧
    (getToken env o eff).2.kvPuts = (getRefreshToken env o eff).2.kvPuts ∧
    (getToken env o eff).2.refreshResolutions = eff.refreshResolutions + 1 := by
  have hfr := (getRefreshToken_frame env o eff).2.2.2.2
  have hres := getRefreshToken_resolutions env o eff
  rcases getToken_spec env o eff with ⟨e, effr, hr, he⟩ |
    ⟨rt', effr, hr, ⟨t', hk, he⟩ | ⟨hk, hrest⟩⟩
  · rw [hr] at hrt
    simp at hrt
  · have ht : t' = t := by
      have := hk.symm.trans hid
      exact Option.some.inj this
    rw [hr] at hfr hres
    refine ⟨?_, ?_, ?_, ?_⟩
    · rw [he, ht]
    · rw [he]
      exact hfr
    · rw [he, hr]
    · rw [he]
      exact hres
  · rw [hk] at hid
    cases hid

/-- C3 amended, witness at a concrete world with both tokens cached. -/
theorem c3_cached_id_token_served_witness :
    (getToken okEnv c3HitOracle Effects.empty).1 = .ok "cached-id" ∧
    (getToken okEnv c3HitOracle Effects.empty).2.authRefreshCalls =
      Effects.empty.authRefreshCalls ∧
    (getToken okEnv c3HitOracle Effects.empty).2.kvPuts =
      (getRefreshToken okEnv c3HitOracle Effects.empty).2.kvPuts ∧
    (getToken okEnv c3HitOracle Effects.empty).2.refreshResolutions =
      Effects.empty.refreshResolutions + 1 :=
  c3_cached_id_token_served okEnv c3HitOracle Effects.empty "cached-id" "rt"
    (by decide) (by decide)

/-- C4 counterexample: with every downstream call able to succeed, a
cache-backend rejection on read makes the whole call fail with that error,
and no upstream call of any kind happens — the error is not swallowed and the
caller does not proceed to upstream, refuting fail-open. -/
theorem c4_counterexample :
    (workerGet okEnv "/v1/x" c4Oracle 0 pdNone).1 = .error .cacheBackendFailure ∧
    (workerGet okEnv "/v1/x" c4Oracle 0 pdNone).2.dataCalls = 0 ∧
    (workerGet okEnv "/v1/x" c4Oracle 0 pdNone).2.authUserCalls = 0 := by
  decide

/-- C4 amended: a cache-backend error on read propagates to the caller as a
failure of the whole call; the only observable effect is the single cache
lookup — no token work, no upstream call, nothing written. Only a genuine
miss makes the caller proceed to upstream. -/
theorem c4_cache_error_propagates (env : Env) (ep : String) (o : Oracle) (now : Int)
    (pd : String → Option Int)
    (hconf : checkConfig env = .ok ())
    (herr : o.cacheLookup = .backendError) :
    workerGet env ep o now pd =
      (.error .cacheBackendFailure, { Effects.empty with cacheMatches := 1 }) := by
  rw [workerGet_okConfig env ep o now pd hconf,
      fetchWithCache_backendError env _ o now pd Effects.empty herr]
  rfl

/-- C4 amended, witness at a concrete world whose cache backend rejects. -/
theorem c4_cache_error_propagates_witness :
    workerGet okEnv "/v1/x" c4Oracle 0 pdNone =
      (.error .cacheBackendFailure, { Effects.empty with cacheMatches := 1 }) :=
  c4_cache_error_propagates okEnv "/v1/x" c4Oracle 0 pdNone (by decide) (by decide)

/-- C5: when the account identifier or the secret is missing from the
configuration, the worker call fails immediately with the configuration
error and the effects log stays empty: no cache lookup, no durable-store
access, and no upstream call of any kind. -/
theorem c5_missing_config_fails_before_io (env : Env) (ep : String) (o : Oracle)
    (now : Int) (pd : String → Option Int)
    (h : jsFalsy env.JQUANTS_API_EMAIL = true ∨ jsFalsy env.JQUANTS_API_PW = true) :
    workerGet env ep o now pd =
      (.error (.thrown "JQUANTS_API_EMAIL or JQUANTS_API_PW is not set"), Effects.empty) := by
  apply workerGet_badConfig
  rcases h with h | h <;> simp [h]

/-- C5, witness: environment with the email binding unset. -/
theorem c5_missing_config_fails_before_io_witness :
    workerGet c5Env "/v1/x" c10Oracle 0 pdNone =
      (.error (.thrown "JQUANTS_API_EMAIL or JQUANTS_API_PW is not set"), Effects.empty) :=
  c5_missing_config_fails_before_io c5Env "/v1/x" c10Oracle 0 pdNone (Or.inl (by decide))

/-- C6: a token-acquisition call succeeds exactly when the expected JSON
field holds a non-empty token (the upstream status is never consulted); the
acquisition functions themselves never write to the durable store, a failing
refresh-token call leaves the store writes untouched, and a failing id-token
call adds no write beyond those of its refresh stage — no partial value is
ever stored. -/
theorem c6_failed_acquisition_stores_nothing :
    (∀ (env : Env) (o : Oracle) (eff : Effects) (t : String),
       (getNewRefreshToken env o eff).1 = .ok t ↔ o.authUserResp = .ok (some t) ∧ t ≠ "") ∧
    (∀ (rt : String) (o : Oracle) (eff : Effects) (t : String),
       (getNewIdToken rt o eff).1 = .ok t ↔ o.authRefreshResp = .ok (some t) ∧ t ≠ "") ∧
    (∀ (env : Env) (o : Oracle) (eff : Effects),
       (getNewRefreshToken env o eff).2.kvPuts = eff.kvPuts) ∧
    (∀ (rt : String) (o : Oracle) (eff : Effects),
       (getNewIdToken rt o eff).2.kvPuts = eff.kvPuts) ∧
    (∀ (env : Env) (o : Oracle) (eff : Effects) (e : JSError),
       (getRefreshToken env o eff).1 = .error e →
         (getRefreshToken env o eff).2.kvPuts = eff.kvPuts) ∧
    (∀ (env : Env) (o : Oracle) (eff : Effects) (e : JSError),
       (getToken env o eff).1 = .error e →
         (getToken env o eff).2.kvPuts = (getRefreshToken env o eff).2.kvPuts) := by
  refine ⟨getNewRefreshToken_ok_iff, getNewIdToken_ok_iff, ?_, ?_,
    getRefreshToken_err_kvPuts, getToken_err_kvPuts⟩
  · intro env o eff
    rw [getNewRefreshToken_snd]
  · intro rt o eff
    rw [getNewIdToken_snd]

/-- C6, witness: a rejected login call leaves the store writes empty. -/
theorem c6_failed_acquisition_stores_nothing_witness :
    (getRefreshToken okEnv c6Oracle Effects.empty).2.kvPuts = Effects.empty.kvPuts :=
  c6_failed_acquisition_stores_nothing.2.2.2.2.1 okEnv c6Oracle Effects.empty
    .upstreamFailure (by decide)

/-- C7: on a served cache entry whose `date` header parses to `T`, the age
debug header is `floor((now − T)/1000)` seconds — in particular `d` when the
read happens at `T + d` seconds — it is omitted when no `date` header is
present (the headers are then extended by the max-age header only), and the
max-age debug header is always the fixed TTL constant 600. -/
theorem c7_debug_age_header (now : Int) (pd : String → Option Int) (res : Response) :
    (∀ d T, hGet res.headers "date" = some d → pd d = some T →
       hGet (setDebugHeaders now pd res).headers X_PROXY_CACHE_AGE_KEY =
         some (toString ((now - T).fdiv 1000))) ∧
    (∀ d T (dd : Nat), hGet res.headers "date" = some d → pd d = some T →
       now = T + 1000 * (dd : Int) →
       hGet (setDebugHeaders now pd res).headers X_PROXY_CACHE_AGE_KEY =
         some (toString (dd : Int))) ∧
    (hGet res.headers "date" = none →
       (setDebugHeaders now pd res).headers =
         hSet res.headers X_PROXY_CACHE_MAXAGE_KEY (toString CACHE_MAX_AGE)) ∧
    hGet (setDebugHeaders now pd res).headers X_PROXY_CACHE_MAXAGE_KEY =
      some (toString CACHE_MAX_AGE) ∧
    CACHE_MAX_AGE = 600 := by
  refine ⟨?_, ?_, setDebugHeaders_no_date now pd res,
    hGet_setDebugHeaders_maxage now pd res, by decide⟩
  · intro d T hd hp
    exact hGet_setDebugHeaders_age now pd res d T hd hp
  · intro d T dd hd hp hnow
    rw [hGet_setDebugHeaders_age now pd res d T hd hp]
    have harith : (now - T).fdiv 1000 = (dd : Int) := by
      rw [hnow, show T + 1000 * (dd : Int) - T = 1000 * (dd : Int) by ring]
      exact Int.mul_fdiv_cancel_left _ (by norm_num)
    rw [harith]

/-- C7, witness: a read 42 seconds after the entry's `date` header. -/
theorem c7_debug_age_header_witness :
    hGet (setDebugHeaders (1672531200000 + 1000 * (42 : Int)) c7Parse c7Entry).headers
      X_PROXY_CACHE_AGE_KEY = some (toString ((42 : Nat) : Int)) :=
  (c7_debug_age_header (1672531200000 + 1000 * (42 : Int)) c7Parse c7Entry).2.1
    "Sun, 01 Jan 2023 00:00:00 GMT" 1672531200000 42 (by decide) (by decide) rfl

/-- C9: token values are stored under the fixed keys `refresh_token` and
`id_token` with TTLs 518400 s (6 days) and 82800 s (23 hours), each strictly
below the upstream expiry (7 days, 24 hours); every durable-store write the
token getter makes uses one of exactly these key/TTL pairs. -/
theorem c9_token_keys_and_ttls :
    REFRESH_TOKEN_TTL = 518400 ∧ ID_TOKEN_TTL = 82800 ∧
    REFRESH_TOKEN_TTL < 7 * 24 * 60 * 60 ∧ ID_TOKEN_TTL < 24 * 60 * 60 ∧
    REFRESH_TOKEN_KEY = "refresh_token" ∧ ID_TOKEN_KEY = "id_token" ∧
    ∀ (env : Env) (o : Oracle) (eff : Effects) (p : String × String × Nat),
      p ∈ (getToken env o eff).2.kvPuts →
        p ∈ eff.kvPuts ∨ (p.1 = REFRESH_TOKEN_KEY ∧ p.2.2 = REFRESH_TOKEN_TTL) ∨
          (p.1 = ID_TOKEN_KEY ∧ p.2.2 = ID_TOKEN_TTL) := by
  refine ⟨by decide, by decide, by decide, by decide, rfl, rfl, ?_⟩
  intro env o eff p hp
  rcases getToken_kvPuts_shape env o eff p hp with h | h | h
  · exact Or.inl h
  · exact Or.inr (Or.inl ⟨h.1, h.2.1⟩)
  · exact Or.inr (Or.inr ⟨h.1, h.2.1⟩)

/-- C9, witness: the refresh-token write of a run that acquires both tokens. -/
theorem c9_token_keys_and_ttls_witness :
    c9Put ∈ Effects.empty.kvPuts ∨
      (c9Put.1 = REFRESH_TOKEN_KEY ∧ c9Put.2.2 = REFRESH_TOKEN_TTL) ∨
      (c9Put.1 = ID_TOKEN_KEY ∧ c9Put.2.2 = ID_TOKEN_TTL) :=
  c9_token_keys_and_ttls.2.2.2.2.2.2 okEnv c9Oracle Effects.empty c9Put (by decide)

/-- C10: every token the getters return is a non-empty string; an empty
string stored in the durable store is treated exactly like an absent value
(the getter behaves identically, re-acquiring the token), and every
durable-store write and every Bearer credential a worker invocation produces
is non-empty. -/
theorem c10_tokens_never_empty :
    (∀ (env : Env) (o : Oracle) (eff : Effects) (t : String),
       (getRefreshToken env o eff).1 = .ok t → t ≠ "") ∧
    (∀ (env : Env) (o : Oracle) (eff : Effects) (t : String),
       (getToken env o eff).1 = .ok t → t ≠ "") ∧
    (∀ (env : Env) (o : Oracle) (eff : Effects),
       getRefreshToken env { o with kvRefresh := some "" } eff =
         getRefreshToken env { o with kvRefresh := none } eff) ∧
    (∀ (env : Env) (o : Oracle) (eff : Effects),
       getToken env { o with kvId := some "" } eff =
         getToken env { o with kvId := none } eff) ∧
    (∀ (env : Env) (ep : String) (o : Oracle) (now : Int) (pd : String → Option Int)
       (p : String × String × Nat),
       p ∈ (workerGet env ep o now pd).2.kvPuts → p.2.1 ≠ "") ∧
    (∀ (env : Env) (ep : String) (o : Oracle) (now : Int) (pd : String → Option Int)
       (b : String), b ∈ (workerGet env ep o now pd).2.bearers → b ≠ "") := by
  refine ⟨getRefreshToken_ok_ne_empty, getToken_ok_ne_empty, ?_, ?_, ?_, ?_⟩
  · intro env o eff
    rfl
  · intro env o eff
    rfl
  · intro env ep o now pd p hp
    cases hc : checkConfig env with
    | error e =>
      rw [workerGet_confErr env ep o now pd e hc] at hp
      cases hp
    | ok u =>
      cases u
      rw [workerGet_okConfig env ep o now pd hc] at hp
      rcases fetchWithCache_kvPuts_shape env _ o now pd Effects.empty p hp with h | h | h
      · cases h
      · exact h.2.2
      · exact h.2.2
  · intro env ep o now pd b hb
    cases hc : checkConfig env with
    | error e =>
      rw [workerGet_confErr env ep o now pd e hc] at hb
      cases hb
    | ok u =>
      cases u
      rw [workerGet_okConfig env ep o now pd hc] at hb
      rcases fetchWithCache_bearers_shape env _ o now pd Effects.empty b hb with h | h
      · cases h
      · exact h

/-- C10, witness: a cached id token served by the getter is non-empty. -/
theorem c10_tokens_never_empty_witness : ("idtok" : String) ≠ "" :=
  c10_tokens_never_empty.2.1 okEnv c10Oracle Effects.empty "idtok" (by decide)

/-- On a cache miss with a working token path and an upstream response `r`,
the worker returns `r` itself and schedules a cache write iff `r` is 2xx. -/
theorem workerGet_miss_data_ok (env : Env) (ep : String) (o : Oracle) (now : Int)
    (pd : String → Option Int) (r : Response) (tok : String)
    (hconf : checkConfig env = .ok ())
    (hmiss : o.cacheLookup = .miss)
    (htok : (getToken env o Effects.empty).1 = .ok tok)
    (hdata : o.dataResp = .ok r) :
    (workerGet env ep o now pd).1 = .ok r ∧
    (workerGet env ep o now pd).2.cachePuts = (if r.isOk then [putCache r] else []) := by
  have hind := getToken_fst_indep env o
    { Effects.empty with cacheMatches := Effects.empty.cacheMatches + 1 } Effects.empty
  rcases fetchWithCache_miss env (API_BASE_URL ++ ep) o now pd Effects.empty hmiss with
    ⟨e, efft, hgt, hfe⟩ | ⟨tok', efft, hgt, ⟨hde, hfe⟩ | ⟨r', hdr, hfe⟩⟩
  · rw [hgt, htok] at hind
    simp at hind
  · rw [hdata] at hde
    simp at hde
  · rw [hdata] at hdr
    injection hdr with hr
    subst hr
    have hcp : efft.cachePuts = [] := by
      have h := (getToken_frame env o
        { Effects.empty with cacheMatches := Effects.empty.cacheMatches + 1 }).2.1
      rw [hgt] at h
      simpa using h
    rw [workerGet_okConfig env ep o now pd hconf, hfe]
    constructor
    · by_cases hok : r.isOk = true <;> simp [hok]
    · by_cases hok : r.isOk = true <;> simp [hok, hcp]

/-- On a cache miss with a working token path, the worker issues exactly one
upstream data call, whatever that call returns. -/
theorem workerGet_miss_dataCalls (env : Env) (ep : String) (o : Oracle) (now : Int)
    (pd : String → Option Int) (tok : String)
    (hconf : checkConfig env = .ok ())
    (hmiss : o.cacheLookup = .miss)
    (htok : (getToken env o Effects.empty).1 = .ok tok) :
    (workerGet env ep o now pd).2.dataCalls = 1 := by
  have hind := getToken_fst_indep env o
    { Effects.empty with cacheMatches := Effects.empty.cacheMatches + 1 } Effects.empty
  rcases fetchWithCache_miss env (API_BASE_URL ++ ep) o now pd Effects.empty hmiss with
    ⟨e, efft, hgt, hfe⟩ | ⟨tok', efft, hgt, hrest⟩
  · rw [hgt, htok] at hind
    simp at hind
  · have hdc : efft.dataCalls = 0 := by
      have h := (getToken_frame env o
        { Effects.empty with cacheMatches := Effects.empty.cacheMatches + 1 }).2.2.1
      rw [hgt] at h
      simpa using h
    rcases hrest with ⟨hde, hfe⟩ | ⟨r, hdr, hfe⟩
    · rw [workerGet_okConfig env ep o now pd hconf, hfe]
      simp [hdc]
    · rw [workerGet_okConfig env ep o now pd hconf, hfe]
      by_cases hok : r.isOk = true <;> simp [hok, hdc]

/-- C8: the stored object is a clone — the caller receives the upstream
response itself, unchanged, while the cache-control directive
`public, s-maxage=600` appears only on the scheduled clone, whose body,
status and every other header agree with the original. -/
theorem c8_put_mutates_only_clone (env : Env) (ep : String) (o : Oracle) (now : Int)
    (pd : String → Option Int) (r : Response) (tok : String)
    (hconf : checkConfig env = .ok ())
    (hmiss : o.cacheLookup = .miss)
    (htok : (getToken env o Effects.empty).1 = .ok tok)
    (hdata : o.dataResp = .ok r)
    (hok : r.isOk = true) :
    (workerGet env ep o now pd).1 = .ok r ∧
    (workerGet env ep o now pd).2.cachePuts = [putCache r] ∧
    hGet (putCache r).headers "Cache-Control" =
      some ("public, s-maxage=" ++ toString CACHE_MAX_AGE) ∧
    (putCache r).body = r.body ∧
    (putCache r).status = r.status ∧
    (∀ k, nameEq k "Cache-Control" = false →
       hGet (putCache r).headers k = hGet r.headers k) := by
  obtain ⟨h1, h2⟩ := workerGet_miss_data_ok env ep o now pd r tok hconf hmiss htok hdata
  rw [if_pos hok] at h2
  refine ⟨h1, h2, ?_, rfl, rfl, ?_⟩
  · exact hGet_hSet_self r.headers "Cache-Control" _
  · intro k hk
    exact hGet_hSet_ne r.headers "Cache-Control" k _ hk

/-- C8, witness at a concrete 2xx upstream response and warm token store. -/
theorem c8_put_mutates_only_clone_witness :
    (workerGet okEnv "/v1/x" c8Oracle 0 pdNone).1 = .ok c8Resp ∧
    (workerGet okEnv "/v1/x" c8Oracle 0 pdNone).2.cachePuts = [putCache c8Resp] ∧
    hGet (putCache c8Resp).headers "Cache-Control" =
      some ("public, s-maxage=" ++ toString CACHE_MAX_AGE) ∧
    (putCache c8Resp).body = c8Resp.body ∧
    (putCache c8Resp).status = c8Resp.status ∧
    (∀ k, nameEq k "Cache-Control" = false →
       hGet (putCache c8Resp).headers k = hGet c8Resp.headers k) :=
  c8_put_mutates_only_clone okEnv "/v1/x" c8Oracle 0 pdNone c8Resp "idtok"
    (by decide) (by decide) (by decide) (by decide) (by decide)

/-- C2 counterexample: a 2xx upstream response that carries a
`Cache-Control: no-store` opt-out IS scheduled for storage — the opt-out is
overwritten by `public, s-maxage=600` on the stored clone — refuting
"cached only if it carried no prior cache-control opt-out". -/
theorem c2_counterexample :
    c2Optout.isOk = true ∧
    hGet c2Optout.headers "cache-control" = some "no-store" ∧
    (workerGet okEnv "/v1/x" c2Oracle 0 pdNone).2.cachePuts = [putCache c2Optout] ∧
    hGet (putCache c2Optout).headers "cache-control" = some "public, s-maxage=600" := by
  decide

/-- C2 amended: on a cache miss the upstream response is scheduled for
storage iff its status is 2xx — any prior cache-control value is replaced on
the stored clone and does not affect whether it is stored; a non-2xx response
is returned to the caller unmodified and never cached, so an identical
subsequent call misses again and re-issues the upstream request. -/
theorem c2_cached_iff_2xx (env : Env) (ep : String) (o1 o2 : Oracle) (now1 now2 : Int)
    (pd : String → Option Int) (r : Response) (tok1 tok2 : String)
    (hconf : checkConfig env = .ok ())
    (htok1 : (getToken env o1 Effects.empty).1 = .ok tok1)
    (hdata : o1.dataResp = .ok r)
    (htok2 : (getToken env o2 Effects.empty).1 = .ok tok2) :
    (runTwice env ep none o1 o2 now1 now2 pd).1.1 = .ok r ∧
    (runTwice env ep none o1 o2 now1 now2 pd).1.2.cachePuts =
      (if r.isOk then [putCache r] else []) ∧
    (r.isOk = false → (runTwice env ep none o1 o2 now1 now2 pd).2.2.dataCalls = 1) := by
  have hfirst := workerGet_miss_data_ok env ep (oracleWith o1 none) now1 pd r tok1
    hconf rfl htok1 hdata
  simp only [runTwice]
  refine ⟨hfirst.1, hfirst.2, ?_⟩
  intro hfail
  have hstore : cacheStoreAfter none
      ((workerGet env ep (oracleWith o1 none) now1 pd).2.cachePuts) = none := by
    rw [hfirst.2, if_neg (by simp [hfail])]
    rfl
  rw [hstore]
  exact workerGet_miss_dataCalls env ep (oracleWith o2 none) now2 pd tok2 hconf rfl htok2

/-- C2 amended, witness: a 500 upstream response is returned as-is, nothing
is scheduled for storage, and the identical second call hits upstream again. -/
theorem c2_cached_iff_2xx_witness :
    (runTwice okEnv "/v1/x" none c2FailOracle c2FailOracle 0 0 pdNone).1.1 = .ok c2FailResp ∧
    (runTwice okEnv "/v1/x" none c2FailOracle c2FailOracle 0 0 pdNone).1.2.cachePuts =
      (if c2FailResp.isOk then [putCache c2FailResp] else []) ∧
    (c2FailResp.isOk = false →
      (runTwice okEnv "/v1/x" none c2FailOracle c2FailOracle 0 0 pdNone).2.2.dataCalls = 1) :=
  c2_cached_iff_2xx okEnv "/v1/x" c2FailOracle c2FailOracle 0 0 pdNone c2FailResp
    "idtok" "idtok" (by decide) (by decide) (by decide) (by decide)

/-- C1 counterexample: a valid non-expired cache entry without a `date`
header is served with the max-age debug header but WITHOUT the age debug
header, refuting "the two debug headers are present" for every hit. -/
theorem c1_counterexample :
    (workerGet okEnv "/v1/x" c1Oracle 0 pdNone).1 = .ok c1Served ∧
    hGet c1Served.headers X_PROXY_CACHE_AGE_KEY = none ∧
    hGet c1Served.headers X_PROXY_CACHE_MAXAGE_KEY = some "600" := by
  decide

/-- C1 amended: on a cache hit the worker returns the stored entry's body,
status and headers unchanged except that cache-control is removed and the
debug headers are injected — the max-age debug header always present and
equal to the TTL constant; the age debug header holds the elapsed whole
seconds when the entry's `date` header parses, holds the literal string
"NaN" when the entry carries a non-empty `date` header that does not parse,
and is left exactly as in the entry (in particular absent if the entry had
none) when the entry has no `date` header; the hit performs no upstream
call and no token work (the only logged effect is the single cache
lookup). -/
theorem c1_cache_hit_serves_entry (env : Env) (ep : String) (o : Oracle) (now : Int)
    (pd : String → Option Int) (r : Response)
    (hconf : checkConfig env = .ok ())
    (hhit : o.cacheLookup = .hit r) :
    ∃ res, workerGet env ep o now pd = (.ok res, { Effects.empty with cacheMatches := 1 }) ∧
      res.body = r.body ∧
      res.status = r.status ∧
      hGet res.headers "Cache-Control" = none ∧
      hGet res.headers X_PROXY_CACHE_MAXAGE_KEY = some (toString CACHE_MAX_AGE) ∧
      (∀ k, nameEq k "Cache-Control" = false → nameEq k X_PROXY_CACHE_AGE_KEY = false →
         nameEq k X_PROXY_CACHE_MAXAGE_KEY = false → hGet res.headers k = hGet r.headers k) ∧
      (∀ d T, hGet r.headers "date" = some d → pd d = some T →
         hGet res.headers X_PROXY_CACHE_AGE_KEY = some (toString ((now - T).fdiv 1000))) ∧
      (∀ d, hGet r.headers "date" = some d → d ≠ "" → pd d = none →
         hGet res.headers X_PROXY_CACHE_AGE_KEY = some "NaN") ∧
      (hGet r.headers "date" = none →
         hGet res.headers X_PROXY_CACHE_AGE_KEY = hGet r.headers X_PROXY_CACHE_AGE_KEY) := by
  refine ⟨setDebugHeaders now pd { r with headers := hDelete r.headers "Cache-Control" },
    ?_, ?_, ?_, ?_, ?_, ?_, ?_, ?_, ?_⟩
  · rw [workerGet_okConfig env ep o now pd hconf,
        fetchWithCache_hit env _ o now pd Effects.empty r hhit]
    rfl
  · rw [setDebugHeaders_body]
  · rw [setDebugHeaders_status]
  · rw [hGet_setDebugHeaders_other now pd _ "Cache-Control" (by decide) (by decide)]
    exact hGet_hDelete_self r.headers "Cache-Control"
  · exact hGet_setDebugHeaders_maxage now pd _
  · intro k hcc hage hmax
    rw [hGet_setDebugHeaders_other now pd _ k hage hmax]
    exact hGet_hDelete_ne r.headers "Cache-Control" k hcc
  · intro d T hd hp
    refine hGet_setDebugHeaders_age now pd _ d T ?_ hp
    rw [hGet_hDelete_ne r.headers "Cache-Control" "date" (by decide)]
    exact hd
  · intro d hd hne hp
    refine hGet_setDebugHeaders_age_nan now pd _ d ?_ hp
    rw [hGet_hDelete_ne r.headers "Cache-Control" "date" (by decide)]
    exact hd
  · intro hd
    have hd2 : hGet (hDelete r.headers "Cache-Control") "date" = none := by
      rw [hGet_hDelete_ne r.headers "Cache-Control" "date" (by decide)]
      exact hd
    rw [setDebugHeaders_no_date now pd _ hd2]
    rw [hGet_hSet_ne _ X_PROXY_CACHE_MAXAGE_KEY X_PROXY_CACHE_AGE_KEY _ (by decide)]
    exact hGet_hDelete_ne r.headers "Cache-Control" X_PROXY_CACHE_AGE_KEY (by decide)

/-- C1 amended, witness at a concrete cache hit. -/
theorem c1_cache_hit_serves_entry_witness :
    ∃ res, workerGet okEnv "/v1/x" c1Oracle 0 pdNone =
        (.ok res, { Effects.empty with cacheMatches := 1 }) ∧
      res.body = c1Entry.body ∧
      res.status = c1Entry.status ∧
      hGet res.headers "Cache-Control" = none ∧
      hGet res.headers X_PROXY_CACHE_MAXAGE_KEY = some (toString CACHE_MAX_AGE) ∧
      (∀ k, nameEq k "Cache-Control" = false → nameEq k X_PROXY_CACHE_AGE_KEY = false →
         nameEq k X_PROXY_CACHE_MAXAGE_KEY = false →
         hGet res.headers k = hGet c1Entry.headers k) ∧
      (∀ d T, hGet c1Entry.headers "date" = some d → pdNone d = some T →
         hGet res.headers X_PROXY_CACHE_AGE_KEY = some (toString ((0 - T).fdiv 1000))) ∧
      (∀ d, hGet c1Entry.headers "date" = some d → d ≠ "" → pdNone d = none →
         hGet res.headers X_PROXY_CACHE_AGE_KEY = some "NaN") ∧
      (hGet c1Entry.headers "date" = none →
         hGet res.headers X_PROXY_CACHE_AGE_KEY = hGet c1Entry.headers X_PROXY_CACHE_AGE_KEY) :=
  c1_cache_hit_serves_entry okEnv "/v1/x" c1Oracle 0 pdNone c1Entry (by decide) (by decide)
